import Mathlib

/-!
Shallow embedding of `src/bazel_to_cmake.py` (Bazel BUILD → CMakeLists.txt
converter): the `BazelTarget` data model, the `BazelParser` exec-based parser,
and the `CMakeGenerator` text generator, together with theorems settling the
specification claims.

Python strings are modelled as Lean `String` (a structure over `List Char`);
Python `list` as Lean `List`; the parser's mutable `self.targets` as explicit
state passing; exceptions as explicit error results.
-/

namespace BazelToCMake

/-! ## Python string primitives used by the source -/

/-- Python `s.startswith(pre)`. -/
def pyStartsWith (s pre : String) : Bool := decide (pre.data <+: s.data)

/-- Python `sub in s` (substring containment). -/
def pyContains (s sub : String) : Bool := decide (sub.data <:+: s.data)

/-- Python `s[1:]`. -/
def pyTail (s : String) : String := String.mk (s.data.drop 1)

/-- Python `s.split(c)` for a single-character separator: splits at every
occurrence of `c`, keeping empty segments; always returns a non-empty list. -/
def splitOnChar (c : Char) : List Char → List (List Char)
  | [] => [[]]
  | x :: xs =>
    let r := splitOnChar c xs
    if x = c then [] :: r
    else
      match r with
      | [] => [[x]]
      | h :: t => (x :: h) :: t

/-- Python `s.split(c)[-1]`: the segment after the last occurrence of `c`
(the whole string when `c` does not occur). -/
def pyLastSegment (s : String) (c : Char) : String :=
  String.mk ((splitOnChar c s.data).getLastD [])

/-! ## Data model: `BazelTarget` (source lines 30–53) -/

/-- `BazelTarget.__init__`: rule type, name, and the five attribute lists
(`hdrs`, `srcs`, `deps`, `visibility`, `data`), all initially empty. -/
structure BazelTarget where
  rule_type : String
  name : String
  hdrs : List String := []
  srcs : List String := []
  deps : List String := []
  visibility : List String := []
  data : List String := []
deriving DecidableEq, Repr

/-- `BazelTarget.add_attribute` (source lines 42–53): extend the matching
attribute list; unknown attribute names are ignored. -/
def BazelTarget.add_attribute (t : BazelTarget) (attr_name : String)
    (values : List String) : BazelTarget :=
  if attr_name = "hdrs" then { t with hdrs := t.hdrs ++ values }
  else if attr_name = "srcs" then { t with srcs := t.srcs ++ values }
  else if attr_name = "deps" then { t with deps := t.deps ++ values }
  else if attr_name = "visibility" then { t with visibility := t.visibility ++ values }
  else if attr_name = "data" then { t with data := t.data ++ values }
  else t

/-! ## Parser: `BazelParser` (source lines 56–111)

The source parses by `exec`-ing the BUILD file as Python with exactly four
names bound: `load` (a no-op) and the three recording functions `cc_library`,
`cc_test`, `cc_binary`.  We embed the descriptor input as either a
syntactically malformed text (Python's `compile` step rejects it before any
statement runs, raising `SyntaxError`) or a parsed sequence of top-level
statements of the declaration language: import-style statements and
keyword-argument call statements `f(k = v, ...)`.  Executing a call whose
function name is not one of the four bound names raises a `NameError`
(the model omits Python builtins, which are not rule names). -/

/-- A Python value usable as a rule-argument: a string or a list of strings
(the only shapes `_populate_target` distinguishes). -/
inductive PyVal where
  | str (s : String)
  | strList (l : List String)
deriving DecidableEq, Repr

/-- A top-level statement of the declaration language. -/
inductive Stmt where
  | imp (modname : String)
  | call (fname : String) (kwargs : List (String × PyVal))
deriving DecidableEq, Repr

/-- The exceptions `parse_file` can raise: `SyntaxError` from compiling
malformed input, `NameError` from an unbound function name. -/
inductive PyError where
  | syntaxError
  | nameError (fname : String)
deriving DecidableEq, Repr

/-- A descriptor text: either malformed (not valid syntax) or a parsed
statement sequence. -/
inductive DescriptorText where
  | malformed
  | valid (prog : List Stmt)

/-- Python `kwargs.get(k)` on the keyword-argument dict (keys are unique in a
Python call, so first match suffices). -/
def kwLookup (kwargs : List (String × PyVal)) (k : String) : Option PyVal :=
  (kwargs.find? (fun p => p.1 == k)).map Prod.snd

/-- `kwargs.get("name", "")` (the model restricts the `name` argument to
string values). -/
def kwName (kwargs : List (String × PyVal)) : String :=
  match kwLookup kwargs "name" with
  | some (PyVal.str s) => s
  | _ => ""

/-- `isinstance(values, list) ? values : [values]` — a single string is
normalized to a one-element list (source lines 108–111). -/
def asList : PyVal → List String
  | PyVal.str s => [s]
  | PyVal.strList l => l

/-- `BazelParser._populate_target` (source lines 103–111): for each of the
five known attribute names present in `kwargs`, add its (normalized) values. -/
def _populate_target (t : BazelTarget) (kwargs : List (String × PyVal)) : BazelTarget :=
  ["hdrs", "srcs", "deps", "visibility", "data"].foldl
    (fun t attr =>
      match kwLookup kwargs attr with
      | some v => t.add_attribute attr (asList v)
      | none => t) t

/-- The body shared by the mock `cc_library`/`cc_test`/`cc_binary` functions
(source lines 72–88): build a target from the rule type and `kwargs`. -/
def mkTarget (rule_type : String) (kwargs : List (String × PyVal)) : BazelTarget :=
  _populate_target { rule_type := rule_type, name := kwName kwargs } kwargs

/-- Execute one top-level statement against the parser state `targets`
(the instance's `self.targets`).  `load` is a bound no-op; the three rule
functions append a target; any other called name is unbound → `NameError`. -/
def execStmt (targets : List BazelTarget) : Stmt → Except PyError (List BazelTarget)
  | Stmt.imp _ => Except.ok targets
  | Stmt.call f kwargs =>
    if f = "load" then Except.ok targets
    else if f = "cc_library" then Except.ok (targets ++ [mkTarget "cc_library" kwargs])
    else if f = "cc_test" then Except.ok (targets ++ [mkTarget "cc_test" kwargs])
    else if f = "cc_binary" then Except.ok (targets ++ [mkTarget "cc_binary" kwargs])
    else Except.error (PyError.nameError f)

/-- Execute a statement sequence, stopping at the first error; returns the
error (if any) together with the parser state afterwards (targets appended
before a failure remain in `self.targets`). -/
def execProg (targets : List BazelTarget) : List Stmt → Option PyError × List BazelTarget
  | [] => (none, targets)
  | s :: rest =>
    match execStmt targets s with
    | Except.ok ts => execProg ts rest
    | Except.error e => (some e, targets)

/-- `BazelParser.parse_file` (source lines 62–101), with the instance state
`self.targets` passed explicitly.  Malformed input fails to compile: `exec`
raises `SyntaxError` before any statement runs, leaving the state unchanged.
On success the returned list is the (accumulated) `self.targets`. -/
def parse_file (self_targets : List BazelTarget) :
    DescriptorText → Option PyError × List BazelTarget
  | DescriptorText.malformed => (some PyError.syntaxError, self_targets)
  | DescriptorText.valid prog => execProg self_targets prog

/-! ## Generator: `CMakeGenerator` (source lines 114–334)

The generator object holds `project_name` (from configuration) and two
constants fixed by `__init__`.  Its only side effect — writing the joined
text to `output_path` at the end of `generate_cmake` (source lines 142–143) —
is modelled as an explicit trace of `(path, content)` writes. -/

/-- `CMakeGenerator` fields (source lines 117–120). -/
structure CMakeGenerator where
  project_name : String
  cmake_minimum_version : String
  cpp_standard : String
deriving DecidableEq, Repr

/-- `CMakeGenerator.__init__` (source lines 117–120): default project name
`"strong_typedefs"`, minimum version `"3.20"`, C++ standard `"20"`. -/
def CMakeGenerator.init (project_name : String := "strong_typedefs") : CMakeGenerator :=
  { project_name := project_name, cmake_minimum_version := "3.20", cpp_standard := "20" }

/-- `CMakeGenerator._generate_header` (source lines 145–158). -/
def _generate_header (g : CMakeGenerator) : List String :=
  ["cmake_minimum_required(VERSION " ++ g.cmake_minimum_version ++ ")",
   "project(" ++ g.project_name ++ " LANGUAGES CXX)",
   "",
   "set(CMAKE_CXX_STANDARD " ++ g.cpp_standard ++ ")",
   "set(CMAKE_CXX_STANDARD_REQUIRED ON)",
   "set(CMAKE_CXX_EXTENSIONS OFF)",
   "",
   "# Enable testing",
   "include(CTest)",
   "enable_testing()"]

/-- One step of `_find_external_deps`'s inner loop (source lines 164–168):
`if dep.startswith("@"): if "googletest" in dep or "gtest" in dep:
external_deps.add("GTest")`.  The Python `set` is modelled as a
duplicate-free list, `set.add` as `List.insert`. -/
def externalDepStep (acc : List String) (dep : String) : List String :=
  if pyStartsWith dep "@" then
    if pyContains dep "googletest" || pyContains dep "gtest" then acc.insert "GTest"
    else acc
  else acc

/-- `CMakeGenerator._find_external_deps` (source lines 160–170). -/
def _find_external_deps (targets : List BazelTarget) : List String :=
  targets.foldl (fun acc t => t.deps.foldl externalDepStep acc) []

/-- The fixed GoogleTest fetch block (source lines 177–187). -/
def gtestFetchBlock : List String :=
  ["include(FetchContent)",
   "",
   "# Fetch GoogleTest",
   "FetchContent_Declare(",
   "    googletest",
   "    GIT_REPOSITORY https://github.com/google/googletest.git",
   "    GIT_TAG        v1.14.0",
   ")",
   "FetchContent_MakeAvailable(googletest)"]

/-- `CMakeGenerator._generate_find_package_section` (source lines 172–189). -/
def _generate_find_package_section (external_deps : List String) : List String :=
  ["# External dependencies"] ++
  (if "GTest" ∈ external_deps then gtestFetchBlock else [])

/-- One dependency of `CMakeGenerator._convert_deps_to_cmake`'s loop body
(source lines 293–308): the at-most-one CMake identifier a Bazel dependency
string contributes.  `none` means the string matches no rule and is dropped. -/
def convertDep (dep : String) : Option String :=
  if pyStartsWith dep ":" then some (pyTail dep)
  else if pyStartsWith dep "//" then
    some (if pyContains dep ":" then pyLastSegment dep ':' else pyLastSegment dep '/')
  else if pyContains dep "@com_google_googletest//:gtest_main" then some "GTest::gtest_main"
  else if pyContains dep "@com_google_googletest//:gtest" then some "GTest::gtest"
  else if pyStartsWith dep "@" then
    if pyContains dep "googletest" || pyContains dep "gtest" then
      some (if pyContains dep "main" then "GTest::gtest_main" else "GTest::gtest")
    else none
  else none

/-- `CMakeGenerator._convert_deps_to_cmake` (source lines 289–310). -/
def _convert_deps_to_cmake (bazel_deps : List String) : List String :=
  bazel_deps.filterMap convertDep

/-- The `target_include_directories` body shared by both library branches
(source lines 221–224 and 234–237). -/
def includeDirLines (name : String) (scope : String) : List String :=
  ["target_include_directories(" ++ name ++ " " ++ scope,
   "    $<BUILD_INTERFACE:${CMAKE_CURRENT_SOURCE_DIR}>",
   "    $<INSTALL_INTERFACE:include>",
   ")"]

/-- `CMakeGenerator._generate_library_target` (source lines 204–249). -/
def _generate_library_target (t : BazelTarget) : List String :=
  let is_header_only : Bool := t.srcs.isEmpty && !t.hdrs.isEmpty
  ["# Library: " ++ t.name] ++
  (if is_header_only then
    ["add_library(" ++ t.name ++ " INTERFACE)"] ++
    (if !t.hdrs.isEmpty then
      ["target_sources(" ++ t.name ++ " INTERFACE"] ++
      t.hdrs.map (fun hdr => "    ${CMAKE_CURRENT_SOURCE_DIR}/" ++ hdr) ++
      [")"]
    else []) ++
    includeDirLines t.name "INTERFACE"
  else
    ["add_library(" ++ t.name] ++
    (t.srcs ++ t.hdrs).map (fun src => "    " ++ src) ++
    [")"] ++
    includeDirLines t.name "PUBLIC") ++
  (if !t.deps.isEmpty then
    let cmake_deps := _convert_deps_to_cmake t.deps
    if !cmake_deps.isEmpty then
      ["target_link_libraries(" ++ t.name ++ " " ++
         (if is_header_only then "INTERFACE" else "PUBLIC")] ++
      cmake_deps.map (fun dep => "    " ++ dep) ++
      [")"]
    else []
  else [])

/-- `CMakeGenerator._generate_test_target` (source lines 251–269). -/
def _generate_test_target (t : BazelTarget) : List String :=
  ["# Test: " ++ t.name,
   "add_executable(" ++ t.name] ++
  t.srcs.map (fun src => "    " ++ src) ++
  [")"] ++
  (let cmake_deps := _convert_deps_to_cmake t.deps
   if !cmake_deps.isEmpty then
     ["target_link_libraries(" ++ t.name] ++
     cmake_deps.map (fun dep => "    " ++ dep) ++
     [")"]
   else []) ++
  ["add_test(NAME " ++ t.name ++ " COMMAND " ++ t.name ++ ")"]

/-- `CMakeGenerator._generate_binary_target` (source lines 271–287). -/
def _generate_binary_target (t : BazelTarget) : List String :=
  ["# Binary: " ++ t.name,
   "add_executable(" ++ t.name] ++
  t.srcs.map (fun src => "    " ++ src) ++
  [")"] ++
  (let cmake_deps := _convert_deps_to_cmake t.deps
   if !cmake_deps.isEmpty then
     ["target_link_libraries(" ++ t.name] ++
     cmake_deps.map (fun dep => "    " ++ dep) ++
     [")"]
   else [])

/-- `CMakeGenerator._generate_target` (source lines 191–202): dispatch on the
rule type; an unknown rule type yields just the comment line. -/
def _generate_target (t : BazelTarget) : List String :=
  if t.rule_type = "cc_library" then _generate_library_target t
  else if t.rule_type = "cc_test" then _generate_test_target t
  else if t.rule_type = "cc_binary" then _generate_binary_target t
  else ["# " ++ t.rule_type ++ ": " ++ t.name]

/-- The file-install block one library target contributes (source lines
316–321): present exactly when the target has headers. -/
def filesBlock (t : BazelTarget) : List String :=
  if !t.hdrs.isEmpty then
    ["install(FILES"] ++
    t.hdrs.map (fun hdr => "    " ++ hdr) ++
    ["    DESTINATION include)"]
  else []

/-- The combined target-install block (source lines 323–332): emitted when
the target-name list is non-empty, listing every library target's name. -/
def targetsInstallBlock (target_names : List String) : List String :=
  if !target_names.isEmpty then
    ["install(TARGETS"] ++
    target_names.map (fun name => "    " ++ name) ++
    ["    EXPORT ${PROJECT_NAME}Targets",
     "    LIBRARY DESTINATION lib",
     "    ARCHIVE DESTINATION lib",
     "    RUNTIME DESTINATION bin",
     "    INCLUDES DESTINATION include)"]
  else []

/-- `CMakeGenerator._generate_install_rules` (source lines 312–334). -/
def _generate_install_rules (library_targets : List BazelTarget) : List String :=
  ["# Install rules"] ++
  (library_targets.map filesBlock).flatten ++
  targetsInstallBlock (library_targets.map (fun t => t.name))

/-- The external-dependency section of `generate_cmake` (source lines
129–132): present exactly when `_find_external_deps` returns a non-empty
set. -/
def externalDepsSection (targets : List BazelTarget) : List String :=
  let external_deps := _find_external_deps targets
  if !external_deps.isEmpty then
    _generate_find_package_section external_deps ++ [""]
  else []

/-- The install section of `generate_cmake` (source lines 138–140): present
exactly when at least one `cc_library` target exists; built from the library
targets only. -/
def installSection (targets : List BazelTarget) : List String :=
  let library_targets := targets.filter (fun t => t.rule_type == "cc_library")
  if !library_targets.isEmpty then _generate_install_rules library_targets
  else []

/-- The full line list built by `CMakeGenerator.generate_cmake` (source lines
122–141) before it is joined and written. -/
def generateLines (g : CMakeGenerator) (targets : List BazelTarget) : List String :=
  _generate_header g ++ [""] ++
  externalDepsSection targets ++
  (targets.map (fun t => _generate_target t ++ [""])).flatten ++
  installSection targets

/-- `CMakeGenerator.generate_cmake` (source lines 122–143) including its side
effect: the function ends by opening `output_path` and writing the
newline-joined lines (source lines 142–143).  The returned trace lists the
`(path, content)` filesystem writes the call performs. -/
def generate_cmake (g : CMakeGenerator) (targets : List BazelTarget)
    (output_path : String) : List (String × String) :=
  [(output_path, String.intercalate "\n" (generateLines g targets))]

/-! ## Derived predicates used to state the claims -/

/-- The condition of `_find_external_deps`'s inner branch (source lines
166–167): the dependency starts with `"@"` and contains `"googletest"` or
`"gtest"` as a substring. -/
def gtestDep (dep : String) : Bool :=
  pyStartsWith dep "@" && (pyContains dep "googletest" || pyContains dep "gtest")

/-- A statement that is neither a recognized rule invocation nor a call to an
unbound name: an import-style statement or a `load(...)` call. -/
def onlyLoadOrImport : Stmt → Bool
  | Stmt.imp _ => true
  | Stmt.call f _ => f == "load"

/-- Whether a target is of Library kind (`cc_library`), as tested by
`generate_cmake` (source line 138). -/
def isLibrary (t : BazelTarget) : Bool := t.rule_type == "cc_library"

/-- A concrete example target: a test depending on the GoogleTest
main-entry-point reference (as in the repository's own BUILD file). -/
def exGtestTest : BazelTarget :=
  { rule_type := "cc_test", name := "t", srcs := ["t.cc"],
    deps := ["@com_google_googletest//:gtest_main"] }

/-! ## General lemmas about the string primitives -/

theorem data_append (a b : String) : (a ++ b).data = a.data ++ b.data := by
  obtain ⟨as⟩ := a
  obtain ⟨bs⟩ := b
  rfl

theorem pyStartsWith_iff {s pre : String} :
    pyStartsWith s pre = true ↔ pre.data <+: s.data := by
  simp [pyStartsWith]

theorem pyContains_iff {s sub : String} :
    pyContains s sub = true ↔ sub.data <:+: s.data := by
  simp [pyContains]

theorem singleton_between_iff_mem {c : Char} {l : List Char} :
    [c] <:+: l ↔ c ∈ l := by
  constructor
  · rintro ⟨s, t, rfl⟩
    simp
  · intro h
    obtain ⟨s, t, rfl⟩ := List.append_of_mem h
    exact ⟨s, t, by simp⟩

theorem pyContains_single_iff {s : String} {c : Char} :
    pyContains s (String.mk [c]) = true ↔ c ∈ s.data := by
  rw [pyContains_iff]
  exact singleton_between_iff_mem

theorem head_append {a : String} {c : Char} (h : a.data.head? = some c)
    (b : String) : (a ++ b).data.head? = some c := by
  rw [data_append]
  cases ha : a.data with
  | nil => rw [ha] at h; cases h
  | cons x xs =>
    rw [ha] at h
    simp only [List.head?_cons, Option.some.injEq] at h
    simp [h]

theorem head_of_pyStartsWith {s pre : String} {c : Char}
    (h : pyStartsWith s pre = true) (hc : pre.data.head? = some c) :
    s.data.head? = some c := by
  obtain ⟨t, ht⟩ := pyStartsWith_iff.mp h
  cases hd : pre.data with
  | nil => rw [hd] at hc; cases hc
  | cons x xs =>
    rw [hd] at hc
    simp only [List.head?_cons, Option.some.injEq] at hc
    rw [hd] at ht
    rw [← ht]
    simp [hc]

theorem pyStartsWith_eq_false_of_head {s pre : String} {c c' : Char}
    (hs : s.data.head? = some c) (hp : pre.data.head? = some c') (hne : c ≠ c') :
    pyStartsWith s pre = false := by
  rcases h : pyStartsWith s pre with _ | _
  · rfl
  · have := head_of_pyStartsWith h hp
    rw [hs] at this
    cases this
    exact absurd rfl hne

theorem ne_of_head {a b : String} {c c' : Char} (ha : a.data.head? = some c)
    (hb : b.data.head? = some c') (h : c ≠ c') : a ≠ b := by
  intro hab
  rw [hab, hb] at ha
  cases ha
  exact absurd rfl h

/-! ## Lemmas about `splitOnChar` -/

theorem splitOnChar_ne_nil (c : Char) (l : List Char) : splitOnChar c l ≠ [] := by
  cases l with
  | nil => simp [splitOnChar]
  | cons x xs =>
    simp only [splitOnChar]
    split
    · simp
    · split
      · simp
      · simp

theorem splitOnChar_of_not_mem {c : Char} {l : List Char} (h : c ∉ l) :
    splitOnChar c l = [l] := by
  induction l with
  | nil => rfl
  | cons x xs ih =>
    simp only [List.mem_cons, not_or] at h
    simp only [splitOnChar]
    rw [ih h.2]
    simp [Ne.symm h.1]

theorem splitOnChar_cons_eq (c x : Char) (xs : List Char) :
    splitOnChar c (x :: xs) =
      if x = c then [] :: splitOnChar c xs
      else
        match splitOnChar c xs with
        | [] => [[x]]
        | h :: t => (x :: h) :: t := rfl

theorem splitOnChar_cons_self (c : Char) (xs : List Char) :
    splitOnChar c (c :: xs) = [] :: splitOnChar c xs := by
  simp [splitOnChar_cons_eq]

theorem splitOnChar_cons_of_ne {c x : Char} (hx : x ≠ c) (xs : List Char) :
    ∃ h t, splitOnChar c xs = h :: t ∧ splitOnChar c (x :: xs) = (x :: h) :: t := by
  cases hs : splitOnChar c xs with
  | nil => exact absurd hs (splitOnChar_ne_nil c xs)
  | cons a as =>
    refine ⟨a, as, rfl, ?_⟩
    rw [splitOnChar_cons_eq, if_neg hx, hs]

theorem two_le_length_splitOnChar {c : Char} {l : List Char} (h : c ∈ l) :
    2 ≤ (splitOnChar c l).length := by
  induction l with
  | nil => cases h
  | cons x xs ih =>
    by_cases hx : x = c
    · subst hx
      rw [splitOnChar_cons_self]
      have hne := splitOnChar_ne_nil x xs
      cases hs : splitOnChar x xs with
      | nil => exact absurd hs hne
      | cons a as => simp
    · have hmem : c ∈ xs := by
        rcases List.mem_cons.mp h with h' | h'
        · exact absurd h'.symm hx
        · exact h'
      obtain ⟨hd, tl, hs, hcons⟩ := splitOnChar_cons_of_ne hx xs
      have h2 := ih hmem
      rw [hs] at h2
      rw [hcons]
      simpa using h2

theorem getLastD_of_ne_nil {α : Type _} {l : List α} (h : l ≠ []) (a b : α) :
    l.getLastD a = l.getLastD b := by
  cases l with
  | nil => exact absurd rfl h
  | cons x xs =>
    rw [List.getLastD_cons, List.getLastD_cons]

theorem getLastD_splitOnChar_append (c : Char) (l₁ l₂ : List Char)
    (h : c ∉ l₂) : (splitOnChar c (l₁ ++ c :: l₂)).getLastD [] = l₂ := by
  induction l₁ with
  | nil =>
    rw [List.nil_append, splitOnChar_cons_self, splitOnChar_of_not_mem h,
      List.getLastD_cons]
    rfl
  | cons x xs ih =>
    rw [List.cons_append]
    by_cases hx : x = c
    · subst hx
      rw [splitOnChar_cons_self, List.getLastD_cons]
      exact ih
    · obtain ⟨hd, tl, hs, hcons⟩ := splitOnChar_cons_of_ne hx (xs ++ c :: l₂)
      have hmem : c ∈ xs ++ c :: l₂ := by simp
      have h2 := two_le_length_splitOnChar hmem
      rw [hs] at ih h2
      rw [hcons]
      cases tl with
      | nil => simp at h2
      | cons a' as' =>
        rw [List.getLastD_cons] at ih ⊢
        rw [getLastD_of_ne_nil (List.cons_ne_nil a' as') (x :: hd) hd]
        exact ih

/-! ## Lemmas about the parser -/

theorem execStmt_error_is_nameError {ts : List BazelTarget} {s : Stmt} {e : PyError}
    (h : execStmt ts s = Except.error e) : ∃ f, e = PyError.nameError f := by
  cases s with
  | imp m => simp [execStmt] at h
  | call f kwargs =>
    simp only [execStmt] at h
    split_ifs at h
    simp only [Except.error.injEq] at h
    exact ⟨f, h.symm⟩

theorem execStmt_ok_extends {ts ts' : List BazelTarget} {s : Stmt}
    (h : execStmt ts s = Except.ok ts') : ts <+: ts' := by
  cases s with
  | imp m =>
    simp only [execStmt, Except.ok.injEq] at h
    rw [← h]
  | call f kwargs =>
    simp only [execStmt] at h
    split_ifs at h <;> simp only [Except.ok.injEq] at h <;> rw [← h]
    · exact List.prefix_append ts _
    · exact List.prefix_append ts _
    · exact List.prefix_append ts _

theorem execProg_state_extends (prog : List Stmt) :
    ∀ ts : List BazelTarget, ts <+: (execProg ts prog).2 := by
  induction prog with
  | nil => intro ts; exact List.prefix_refl ts
  | cons s rest ih =>
    intro ts
    simp only [execProg]
    cases he : execStmt ts s with
    | ok ts' => exact (execStmt_ok_extends he).trans (ih ts')
    | error e => exact List.prefix_refl ts

theorem execProg_append {prog₁ : List Stmt} :
    ∀ {ts : List BazelTarget}, (execProg ts prog₁).1 = none →
    ∀ prog₂, execProg ts (prog₁ ++ prog₂) = execProg (execProg ts prog₁).2 prog₂ := by
  induction prog₁ with
  | nil => intro ts _ prog₂; rfl
  | cons s rest ih =>
    intro ts h prog₂
    rw [List.cons_append]
    simp only [execProg] at h ⊢
    cases he : execStmt ts s with
    | ok ts' =>
      rw [he] at h
      exact ih h prog₂
    | error e =>
      rw [he] at h
      simp at h

theorem execProg_no_syntaxError (prog : List Stmt) :
    ∀ ts : List BazelTarget, (execProg ts prog).1 ≠ some PyError.syntaxError := by
  induction prog with
  | nil => intro ts; simp [execProg]
  | cons s rest ih =>
    intro ts
    simp only [execProg]
    cases he : execStmt ts s with
    | ok ts' => exact ih ts'
    | error e =>
      obtain ⟨f, rfl⟩ := execStmt_error_is_nameError he
      simp

theorem execProg_of_onlyLoadOrImport (prog : List Stmt)
    (h : ∀ s ∈ prog, onlyLoadOrImport s = true) :
    ∀ ts : List BazelTarget, execProg ts prog = (none, ts) := by
  induction prog with
  | nil => intro ts; rfl
  | cons s rest ih =>
    intro ts
    have hs : execStmt ts s = Except.ok ts := by
      have := h s (by simp)
      cases s with
      | imp m => rfl
      | call f kwargs =>
        simp only [onlyLoadOrImport, beq_iff_eq] at this
        simp [execStmt, this]
    simp only [execProg, hs]
    exact ih (fun s hs => h s (by simp [hs])) ts

/-! ## Lemmas about `_find_external_deps` -/

theorem bool_false {b : Bool} (h : ¬ b = true) : b = false := by
  cases b
  · rfl
  · exact absurd rfl h

theorem externalDepStep_eq (acc : List String) (d : String) :
    externalDepStep acc d = if gtestDep d then acc.insert "GTest" else acc := by
  simp only [externalDepStep, gtestDep]
  by_cases h1 : pyStartsWith d "@" = true
  · rw [if_pos h1]
    simp only [h1, Bool.true_and]
  · rw [if_neg h1]
    simp only [bool_false h1, Bool.false_and]
    simp

theorem foldl_externalDepStep (deps : List String) :
    ∀ acc : List String, deps.foldl externalDepStep acc =
      if deps.any gtestDep then acc.insert "GTest" else acc := by
  induction deps with
  | nil => intro acc; simp
  | cons d ds ih =>
    intro acc
    rw [List.foldl_cons, externalDepStep_eq, List.any_cons]
    by_cases hd : gtestDep d = true
    · rw [if_pos hd, ih]
      by_cases hds : ds.any gtestDep = true
      · rw [if_pos hds, if_pos (by simp [hd]),
          List.insert_of_mem (List.mem_insert_self _ _)]
      · rw [if_neg hds, if_pos (by simp [hd])]
    · rw [if_neg hd, ih]
      have hb : gtestDep d = false := by
        cases hgd : gtestDep d
        · rfl
        · exact absurd hgd hd
      rw [hb]
      simp

theorem find_external_deps_eq (targets : List BazelTarget) :
    _find_external_deps targets =
      if targets.any (fun t => t.deps.any gtestDep) then ["GTest"] else [] := by
  have key : ∀ acc : List String,
      targets.foldl (fun acc t => t.deps.foldl externalDepStep acc) acc =
        if targets.any (fun t => t.deps.any gtestDep) then acc.insert "GTest" else acc := by
    induction targets with
    | nil => intro acc; simp
    | cons t ts ih =>
      intro acc
      rw [List.foldl_cons, foldl_externalDepStep, List.any_cons]
      by_cases ht : t.deps.any gtestDep = true
      · rw [if_pos ht, ih]
        by_cases hts : ts.any (fun t => t.deps.any gtestDep) = true
        · rw [if_pos hts, if_pos (by simp [ht]),
            List.insert_of_mem (List.mem_insert_self _ _)]
        · rw [if_neg hts, if_pos (by simp [ht])]
      · have hb : t.deps.any gtestDep = false := by
          cases hgd : t.deps.any gtestDep
          · rfl
          · exact absurd hgd ht
        rw [if_neg ht, ih, hb]
        simp
  rw [_find_external_deps, key []]
  split <;> rfl

theorem externalDepsSection_eq (targets : List BazelTarget) :
    externalDepsSection targets =
      if targets.any (fun t => t.deps.any gtestDep) then
        ["# External dependencies"] ++ gtestFetchBlock ++ [""]
      else [] := by
  simp only [externalDepsSection, find_external_deps_eq]
  by_cases h : targets.any (fun t => t.deps.any gtestDep) = true
  · rw [if_pos h, if_pos h]
    simp [_generate_find_package_section]
  · have hb : targets.any (fun t => t.deps.any gtestDep) = false := by
      cases hgd : targets.any (fun t => t.deps.any gtestDep)
      · rfl
      · exact absurd hgd h
    rw [hb]
    simp

/-! ## Lemmas about dependency-reference resolution -/

theorem convertDep_local (s : String) : convertDep (":" ++ s) = some s := by
  obtain ⟨d⟩ := s
  have h1 : pyStartsWith (":" ++ String.mk d) ":" = true :=
    pyStartsWith_iff.mpr ⟨d, rfl⟩
  unfold convertDep
  rw [if_pos h1]
  rfl

theorem convertDep_pkg_colon (p foo : String)
    (h : pyContains foo ":" = false) :
    convertDep ("//" ++ p ++ ":" ++ foo) = some foo := by
  obtain ⟨pd⟩ := p
  obtain ⟨fd⟩ := foo
  have hhead : ("//" ++ String.mk pd ++ ":" ++ String.mk fd).data.head? = some '/' := rfl
  have h1 : pyStartsWith ("//" ++ String.mk pd ++ ":" ++ String.mk fd) ":" = false :=
    pyStartsWith_eq_false_of_head hhead rfl (by decide)
  have h2 : pyStartsWith ("//" ++ String.mk pd ++ ":" ++ String.mk fd) "//" = true :=
    pyStartsWith_iff.mpr ⟨(pd ++ [':']) ++ fd, rfl⟩
  have hdata : ("//" ++ String.mk pd ++ ":" ++ String.mk fd).data =
      ('/' :: '/' :: pd) ++ (':' :: fd) := by
    show (('/' :: '/' :: pd) ++ [':']) ++ fd = _
    rw [List.append_assoc]
    rfl
  have h3 : pyContains ("//" ++ String.mk pd ++ ":" ++ String.mk fd) ":" = true := by
    apply pyContains_iff.mpr
    rw [hdata]
    exact singleton_between_iff_mem.mpr (by simp)
  have hnm : ':' ∉ fd := by
    intro hm
    have := pyContains_single_iff.mpr hm
    rw [h] at this
    cases this
  unfold convertDep
  rw [if_neg (by simp [h1]), if_pos h2, if_pos h3]
  simp only [pyLastSegment, hdata, getLastD_splitOnChar_append ':' _ _ hnm]

theorem convertDep_pkg_slash (p b : String)
    (hpc : pyContains ("//" ++ p ++ "/" ++ b) ":" = false)
    (hb : pyContains b "/" = false) :
    convertDep ("//" ++ p ++ "/" ++ b) = some b := by
  obtain ⟨pd⟩ := p
  obtain ⟨bd⟩ := b
  have hhead : ("//" ++ String.mk pd ++ "/" ++ String.mk bd).data.head? = some '/' := rfl
  have h1 : pyStartsWith ("//" ++ String.mk pd ++ "/" ++ String.mk bd) ":" = false :=
    pyStartsWith_eq_false_of_head hhead rfl (by decide)
  have h2 : pyStartsWith ("//" ++ String.mk pd ++ "/" ++ String.mk bd) "//" = true :=
    pyStartsWith_iff.mpr ⟨(pd ++ ['/']) ++ bd, rfl⟩
  have hdata : ("//" ++ String.mk pd ++ "/" ++ String.mk bd).data =
      ('/' :: '/' :: pd) ++ ('/' :: bd) := by
    show (('/' :: '/' :: pd) ++ ['/']) ++ bd = _
    rw [List.append_assoc]
    rfl
  have hnm : '/' ∉ bd := by
    intro hm
    have := pyContains_single_iff.mpr hm
    rw [hb] at this
    cases this
  unfold convertDep
  rw [if_neg (by simp [h1]), if_pos h2, if_neg (by simp [hpc])]
  simp only [pyLastSegment, hdata, getLastD_splitOnChar_append '/' _ _ hnm]

theorem convertDep_gtest_main :
    convertDep "@com_google_googletest//:gtest_main" = some "GTest::gtest_main" := by
  decide

theorem convertDep_gtest_plain :
    convertDep "@com_google_googletest//:gtest" = some "GTest::gtest" := by
  decide

theorem mem_convert_deps {deps : List String} {dep r : String}
    (hmem : dep ∈ deps) (hr : convertDep dep = some r) :
    r ∈ _convert_deps_to_cmake deps := by
  unfold _convert_deps_to_cmake
  exact List.mem_filterMap.mpr ⟨dep, hmem, hr⟩

theorem convertDep_none {dep : String}
    (h1 : pyStartsWith dep ":" = false)
    (h2 : pyStartsWith dep "//" = false)
    (h3 : pyContains dep "@com_google_googletest//:gtest_main" = false)
    (h4 : pyContains dep "@com_google_googletest//:gtest" = false)
    (h5 : pyStartsWith dep "@" = true →
      (pyContains dep "googletest" || pyContains dep "gtest") = false) :
    convertDep dep = none := by
  unfold convertDep
  rw [if_neg (by simp [h1]), if_neg (by simp [h2]), if_neg (by simp [h3]),
    if_neg (by simp [h4])]
  by_cases ha : pyStartsWith dep "@" = true
  · rw [if_pos ha, if_neg (by simp [h5 ha])]
  · rw [if_neg ha]

/-! ## Shape lemmas for the generated blocks -/

theorem headq_ne {a : String} {c c' : Char} (h : a.data.head? = some c)
    (hne : c ≠ c') : a.data.head? ≠ some c' := by
  rw [h]
  intro h2
  exact hne (Option.some.inj h2)

theorem library_target_header_only (t : BazelTarget) (hsrcs : t.srcs = [])
    (hhdrs : t.hdrs ≠ []) :
    _generate_library_target t =
      ["# Library: " ++ t.name] ++
      (["add_library(" ++ t.name ++ " INTERFACE)"] ++
        (["target_sources(" ++ t.name ++ " INTERFACE"] ++
          t.hdrs.map (fun hdr => "    ${CMAKE_CURRENT_SOURCE_DIR}/" ++ hdr) ++ [")"]) ++
        includeDirLines t.name "INTERFACE") ++
      (if !t.deps.isEmpty then
        if !(_convert_deps_to_cmake t.deps).isEmpty then
          ["target_link_libraries(" ++ t.name ++ " " ++ "INTERFACE"] ++
          (_convert_deps_to_cmake t.deps).map (fun dep => "    " ++ dep) ++ [")"]
        else []
      else []) := by
  have h1 : t.srcs.isEmpty = true := by simp [hsrcs]
  have h2 : t.hdrs.isEmpty = false := by simpa using hhdrs
  simp [_generate_library_target, h1, h2]

theorem library_target_compiled (t : BazelTarget)
    (h : (t.srcs.isEmpty && !t.hdrs.isEmpty) = false) :
    _generate_library_target t =
      ["# Library: " ++ t.name] ++
      (["add_library(" ++ t.name] ++
        (t.srcs ++ t.hdrs).map (fun src => "    " ++ src) ++ [")"] ++
        includeDirLines t.name "PUBLIC") ++
      (if !t.deps.isEmpty then
        if !(_convert_deps_to_cmake t.deps).isEmpty then
          ["target_link_libraries(" ++ t.name ++ " " ++ "PUBLIC"] ++
          (_convert_deps_to_cmake t.deps).map (fun dep => "    " ++ dep) ++ [")"]
        else []
      else []) := by
  simp [_generate_library_target, h]

theorem headq_ne2 (c : Char) {a : String} {c' : Char} (h : a.data.head? = some c)
    (hne : c ≠ c') : a.data.head? ≠ some c' := headq_ne h hne

theorem forall_mem_ite {α : Type _} {p : α → Prop} {c : Prop} [Decidable c]
    {l₁ l₂ : List α} (h₁ : ∀ x ∈ l₁, p x) (h₂ : ∀ x ∈ l₂, p x) :
    ∀ x ∈ (if c then l₁ else l₂), p x := by
  split
  · exact h₁
  · exact h₂

theorem no_F_of_includeDir (name scope : String) :
    ∀ l ∈ includeDirLines name scope, l.data.head? ≠ some 'F' := by
  refine List.forall_mem_cons.mpr ⟨?_, List.forall_mem_cons.mpr ⟨?_,
    List.forall_mem_cons.mpr ⟨?_, List.forall_mem_singleton.mpr ?_⟩⟩⟩
  · exact headq_ne2 't'
      (head_append (head_append (head_append (by decide) _) _) _) (by decide)
  · decide
  · decide
  · decide

theorem no_F_of_linkBlock (name scope : String) (cd : List String) :
    ∀ l ∈ (["target_link_libraries(" ++ name ++ " " ++ scope] ++
      cd.map (fun dep => "    " ++ dep) ++ [")"]), l.data.head? ≠ some 'F' := by
  refine List.forall_mem_append.mpr ⟨List.forall_mem_append.mpr
    ⟨List.forall_mem_singleton.mpr ?_, List.forall_mem_map.mpr ?_⟩,
    List.forall_mem_singleton.mpr ?_⟩
  · exact headq_ne2 't'
      (head_append (head_append (head_append (by decide) _) _) _) (by decide)
  · intro dep _
    exact headq_ne2 ' ' (head_append (by decide) _) (by decide)
  · decide

theorem no_F_of_library (t : BazelTarget) :
    ∀ l ∈ _generate_library_target t, l.data.head? ≠ some 'F' := by
  by_cases hb : (t.srcs.isEmpty && !t.hdrs.isEmpty) = true
  · obtain ⟨h1, h2⟩ := Bool.and_eq_true_iff.mp hb
    have hsrcs : t.srcs = [] := by simpa using h1
    have hhdrs : t.hdrs ≠ [] := by simpa using h2
    rw [library_target_header_only t hsrcs hhdrs]
    refine List.forall_mem_append.mpr ⟨List.forall_mem_append.mpr
      ⟨List.forall_mem_singleton.mpr ?_, ?_⟩,
      forall_mem_ite (forall_mem_ite (no_F_of_linkBlock t.name "INTERFACE" _)
        (List.forall_mem_nil _)) (List.forall_mem_nil _)⟩
    · exact headq_ne2 '#' (head_append (by decide) _) (by decide)
    · refine List.forall_mem_append.mpr ⟨List.forall_mem_append.mpr
        ⟨List.forall_mem_singleton.mpr ?_, ?_⟩, no_F_of_includeDir t.name "INTERFACE"⟩
      · exact headq_ne2 'a' (head_append (head_append (by decide) _) _) (by decide)
      · refine List.forall_mem_append.mpr ⟨List.forall_mem_append.mpr
          ⟨List.forall_mem_singleton.mpr ?_, List.forall_mem_map.mpr ?_⟩,
          List.forall_mem_singleton.mpr ?_⟩
        · exact headq_ne2 't' (head_append (head_append (by decide) _) _) (by decide)
        · intro hdr _
          exact headq_ne2 ' ' (head_append (by decide) _) (by decide)
        · decide
  · rw [library_target_compiled t (bool_false hb)]
    refine List.forall_mem_append.mpr ⟨List.forall_mem_append.mpr
      ⟨List.forall_mem_singleton.mpr ?_, ?_⟩,
      forall_mem_ite (forall_mem_ite (no_F_of_linkBlock t.name "PUBLIC" _)
        (List.forall_mem_nil _)) (List.forall_mem_nil _)⟩
    · exact headq_ne2 '#' (head_append (by decide) _) (by decide)
    · refine List.forall_mem_append.mpr ⟨List.forall_mem_append.mpr
        ⟨List.forall_mem_append.mpr ⟨List.forall_mem_singleton.mpr ?_,
          List.forall_mem_map.mpr ?_⟩, List.forall_mem_singleton.mpr ?_⟩,
        no_F_of_includeDir t.name "PUBLIC"⟩
      · exact headq_ne2 'a' (head_append (by decide) _) (by decide)
      · intro src _
        exact headq_ne2 ' ' (head_append (by decide) _) (by decide)
      · decide

theorem no_F_of_linkBlockPlain (name : String) (cd : List String) :
    ∀ l ∈ (["target_link_libraries(" ++ name] ++
      cd.map (fun dep => "    " ++ dep) ++ [")"]), l.data.head? ≠ some 'F' := by
  refine List.forall_mem_append.mpr ⟨List.forall_mem_append.mpr
    ⟨List.forall_mem_singleton.mpr ?_, List.forall_mem_map.mpr ?_⟩,
    List.forall_mem_singleton.mpr ?_⟩
  · exact headq_ne2 't' (head_append (by decide) _) (by decide)
  · intro dep _
    exact headq_ne2 ' ' (head_append (by decide) _) (by decide)
  · decide

theorem no_F_of_test (t : BazelTarget) :
    ∀ l ∈ _generate_test_target t, l.data.head? ≠ some 'F' := by
  unfold _generate_test_target
  refine List.forall_mem_append.mpr ⟨List.forall_mem_append.mpr
    ⟨List.forall_mem_append.mpr ⟨List.forall_mem_append.mpr
      ⟨List.forall_mem_cons.mpr ⟨?_, List.forall_mem_singleton.mpr ?_⟩,
        List.forall_mem_map.mpr ?_⟩, List.forall_mem_singleton.mpr ?_⟩,
      forall_mem_ite (no_F_of_linkBlockPlain t.name _) (List.forall_mem_nil _)⟩,
    List.forall_mem_singleton.mpr ?_⟩
  · exact headq_ne2 '#' (head_append (by decide) _) (by decide)
  · exact headq_ne2 'a' (head_append (by decide) _) (by decide)
  · intro src _
    exact headq_ne2 ' ' (head_append (by decide) _) (by decide)
  · decide
  · exact headq_ne2 'a'
      (head_append (head_append (head_append (head_append (by decide) _) _) _) _)
      (by decide)

theorem no_F_of_binary (t : BazelTarget) :
    ∀ l ∈ _generate_binary_target t, l.data.head? ≠ some 'F' := by
  unfold _generate_binary_target
  refine List.forall_mem_append.mpr ⟨List.forall_mem_append.mpr
    ⟨List.forall_mem_append.mpr
      ⟨List.forall_mem_cons.mpr ⟨?_, List.forall_mem_singleton.mpr ?_⟩,
        List.forall_mem_map.mpr ?_⟩, List.forall_mem_singleton.mpr ?_⟩,
    forall_mem_ite (no_F_of_linkBlockPlain t.name _) (List.forall_mem_nil _)⟩
  · exact headq_ne2 '#' (head_append (by decide) _) (by decide)
  · exact headq_ne2 'a' (head_append (by decide) _) (by decide)
  · intro src _
    exact headq_ne2 ' ' (head_append (by decide) _) (by decide)
  · decide

theorem no_F_of_target (t : BazelTarget) :
    ∀ l ∈ _generate_target t, l.data.head? ≠ some 'F' := by
  unfold _generate_target
  refine forall_mem_ite (no_F_of_library t) (forall_mem_ite (no_F_of_test t)
    (forall_mem_ite (no_F_of_binary t) (List.forall_mem_singleton.mpr ?_)))
  exact headq_ne2 '#'
    (head_append (head_append (head_append (by decide) _) _) _) (by decide)

theorem no_F_of_header (g : CMakeGenerator) :
    ∀ l ∈ _generate_header g, l.data.head? ≠ some 'F' := by
  unfold _generate_header
  refine List.forall_mem_cons.mpr ⟨?_, List.forall_mem_cons.mpr ⟨?_,
    List.forall_mem_cons.mpr ⟨?_, List.forall_mem_cons.mpr ⟨?_,
    List.forall_mem_cons.mpr ⟨?_, List.forall_mem_cons.mpr ⟨?_,
    List.forall_mem_cons.mpr ⟨?_, List.forall_mem_cons.mpr ⟨?_,
    List.forall_mem_cons.mpr ⟨?_, List.forall_mem_singleton.mpr ?_⟩⟩⟩⟩⟩⟩⟩⟩⟩
  · exact headq_ne2 'c' (head_append (head_append (by decide) _) _) (by decide)
  · exact headq_ne2 'p' (head_append (head_append (by decide) _) _) (by decide)
  · decide
  · exact headq_ne2 's' (head_append (head_append (by decide) _) _) (by decide)
  · decide
  · decide
  · decide
  · decide
  · decide
  · decide

theorem no_F_of_filesBlock (t : BazelTarget) :
    ∀ l ∈ filesBlock t, l.data.head? ≠ some 'F' := by
  unfold filesBlock
  refine forall_mem_ite ?_ (List.forall_mem_nil _)
  refine List.forall_mem_append.mpr ⟨List.forall_mem_append.mpr
    ⟨List.forall_mem_singleton.mpr ?_, List.forall_mem_map.mpr ?_⟩,
    List.forall_mem_singleton.mpr ?_⟩
  · decide
  · intro hdr _
    exact headq_ne2 ' ' (head_append (by decide) _) (by decide)
  · decide

theorem no_F_of_targetsBlock (target_names : List String) :
    ∀ l ∈ targetsInstallBlock target_names, l.data.head? ≠ some 'F' := by
  unfold targetsInstallBlock
  refine forall_mem_ite ?_ (List.forall_mem_nil _)
  refine List.forall_mem_append.mpr ⟨List.forall_mem_append.mpr
    ⟨List.forall_mem_singleton.mpr ?_, List.forall_mem_map.mpr ?_⟩,
    List.forall_mem_cons.mpr ⟨?_, List.forall_mem_cons.mpr ⟨?_,
    List.forall_mem_cons.mpr ⟨?_, List.forall_mem_cons.mpr ⟨?_,
    List.forall_mem_singleton.mpr ?_⟩⟩⟩⟩⟩
  · decide
  · intro name _
    exact headq_ne2 ' ' (head_append (by decide) _) (by decide)
  · decide
  · decide
  · decide
  · decide
  · decide

theorem no_F_of_install (libs : List BazelTarget) :
    ∀ l ∈ _generate_install_rules libs, l.data.head? ≠ some 'F' := by
  unfold _generate_install_rules
  refine List.forall_mem_append.mpr ⟨List.forall_mem_append.mpr
    ⟨List.forall_mem_singleton.mpr ?_, ?_⟩, no_F_of_targetsBlock _⟩
  · decide
  · intro l hl
    rcases List.mem_flatten.mp hl with ⟨blk, hblk, hmem⟩
    rcases List.mem_map.mp hblk with ⟨t, _, rfl⟩
    exact no_F_of_filesBlock t l hmem

theorem no_F_of_installSection (ts : List BazelTarget) :
    ∀ l ∈ installSection ts, l.data.head? ≠ some 'F' := by
  unfold installSection
  exact forall_mem_ite (no_F_of_install _) (List.forall_mem_nil _)

theorem mem_generateLines_of_mem_target {t : BazelTarget} {ts : List BazelTarget}
    {l : String} (g : CMakeGenerator) (ht : t ∈ ts) (hl : l ∈ _generate_target t) :
    l ∈ generateLines g ts := by
  unfold generateLines
  have hm : l ∈ (ts.map (fun t => _generate_target t ++ [""])).flatten :=
    List.mem_flatten.mpr ⟨_generate_target t ++ [""], List.mem_map_of_mem _ ht,
      List.mem_append_left _ hl⟩
  simp only [List.mem_append]
  tauto

theorem fetch_mem_iff (g : CMakeGenerator) (ts : List BazelTarget) :
    "FetchContent_Declare(" ∈ generateLines g ts ↔
      ts.any (fun t => t.deps.any gtestDep) = true := by
  have hF : ("FetchContent_Declare(" : String).data.head? = some 'F' := by decide
  constructor
  · intro hmem
    by_contra hno
    have hno' := bool_false hno
    unfold generateLines at hmem
    rw [externalDepsSection_eq] at hmem
    simp only [hno', Bool.false_eq_true, if_false, List.append_nil] at hmem
    rcases List.mem_append.mp hmem with h | h
    · rcases List.mem_append.mp h with h | h
      · rcases List.mem_append.mp h with h | h
        · exact no_F_of_header g _ h hF
        · simp only [List.mem_singleton] at h
          exact absurd h (by decide)
      · rcases List.mem_flatten.mp h with ⟨blk, hblk, hmem2⟩
        rcases List.mem_map.mp hblk with ⟨t, _, rfl⟩
        rcases List.mem_append.mp hmem2 with h2 | h2
        · exact no_F_of_target t _ h2 hF
        · simp only [List.mem_singleton] at h2
          exact absurd h2 (by decide)
    · exact no_F_of_installSection ts _ h hF
  · intro hany
    unfold generateLines
    rw [externalDepsSection_eq, if_pos hany]
    simp [gtestFetchBlock]

/-! ## Lemmas for the header-only / compiled library dichotomy -/

theorem pyStartsWith_false_head2 (c c' : Char) {s pre : String}
    (hs : s.data.head? = some c) (hp : pre.data.head? = some c') (hne : c ≠ c') :
    ¬ pyStartsWith s pre = true := by
  intro h
  have h2 := head_of_pyStartsWith h hp
  rw [hs] at h2
  exact hne (Option.some.inj h2)

theorem ne_of_head2 (c c' : Char) {a b : String} (ha : a.data.head? = some c)
    (hb : b.data.head? = some c') (h : c ≠ c') : a ≠ b := ne_of_head ha hb h

theorem addlib_ne_iface (name : String) :
    ("add_library(" ++ name : String) ≠ "add_library(" ++ name ++ " INTERFACE)" := by
  intro h
  have hd := congrArg String.data h
  rw [data_append, data_append, data_append] at hd
  have hI := List.self_eq_append_right.mp hd
  exact absurd hI (by decide)

theorem library_header_only_addlib_unique (t : BazelTarget) (hsrcs : t.srcs = [])
    (hhdrs : t.hdrs ≠ []) :
    ∀ l ∈ _generate_library_target t, pyStartsWith l "add_library(" = true →
      l = "add_library(" ++ t.name ++ " INTERFACE)" := by
  rw [library_target_header_only t hsrcs hhdrs]
  have hpA : ("add_library(" : String).data.head? = some 'a' := by decide
  refine List.forall_mem_append.mpr ⟨List.forall_mem_append.mpr
    ⟨List.forall_mem_singleton.mpr ?_, ?_⟩,
    forall_mem_ite (forall_mem_ite ?_ (List.forall_mem_nil _))
      (List.forall_mem_nil _)⟩
  · intro h
    exact absurd h (pyStartsWith_false_head2 '#' 'a'
      (head_append (by decide) _) hpA (by decide))
  · refine List.forall_mem_append.mpr ⟨List.forall_mem_append.mpr
      ⟨List.forall_mem_singleton.mpr ?_, ?_⟩, ?_⟩
    · intro _
      rfl
    · refine List.forall_mem_append.mpr ⟨List.forall_mem_append.mpr
        ⟨List.forall_mem_singleton.mpr ?_, List.forall_mem_map.mpr ?_⟩,
        List.forall_mem_singleton.mpr ?_⟩
      · intro h
        exact absurd h (pyStartsWith_false_head2 't' 'a'
          (head_append (head_append (by decide) _) _) hpA (by decide))
      · intro hdr _ h
        exact absurd h (pyStartsWith_false_head2 ' ' 'a'
          (head_append (by decide) _) hpA (by decide))
      · intro h
        exact absurd h (pyStartsWith_false_head2 ')' 'a' (by decide) hpA (by decide))
    · refine List.forall_mem_cons.mpr ⟨?_, List.forall_mem_cons.mpr ⟨?_,
        List.forall_mem_cons.mpr ⟨?_, List.forall_mem_singleton.mpr ?_⟩⟩⟩
      · intro h
        exact absurd h (pyStartsWith_false_head2 't' 'a'
          (head_append (head_append (head_append (by decide) _) _) _) hpA (by decide))
      · intro h
        exact absurd h (pyStartsWith_false_head2 ' ' 'a' (by decide) hpA (by decide))
      · intro h
        exact absurd h (pyStartsWith_false_head2 ' ' 'a' (by decide) hpA (by decide))
      · intro h
        exact absurd h (pyStartsWith_false_head2 ')' 'a' (by decide) hpA (by decide))
  · refine List.forall_mem_append.mpr ⟨List.forall_mem_append.mpr
      ⟨List.forall_mem_singleton.mpr ?_, List.forall_mem_map.mpr ?_⟩,
      List.forall_mem_singleton.mpr ?_⟩
    · intro h
      exact absurd h (pyStartsWith_false_head2 't' 'a'
        (head_append (head_append (head_append (by decide) _) _) _) hpA (by decide))
    · intro dep _ h
      exact absurd h (pyStartsWith_false_head2 ' ' 'a'
        (head_append (by decide) _) hpA (by decide))
    · intro h
      exact absurd h (pyStartsWith_false_head2 ')' 'a' (by decide) hpA (by decide))

theorem library_compiled_no_iface (t : BazelTarget)
    (h : (t.srcs.isEmpty && !t.hdrs.isEmpty) = false) :
    ("add_library(" ++ t.name ++ " INTERFACE)") ∉ _generate_library_target t := by
  intro hmem
  have hall : ∀ l ∈ _generate_library_target t,
      l ≠ "add_library(" ++ t.name ++ " INTERFACE)" := by
    rw [library_target_compiled t h]
    have hIf : ("add_library(" ++ t.name ++ " INTERFACE)").data.head? = some 'a' :=
      head_append (head_append (by decide) _) _
    refine List.forall_mem_append.mpr ⟨List.forall_mem_append.mpr
      ⟨List.forall_mem_singleton.mpr ?_, ?_⟩,
      forall_mem_ite (forall_mem_ite ?_ (List.forall_mem_nil _))
        (List.forall_mem_nil _)⟩
    · exact ne_of_head2 '#' 'a' (head_append (by decide) _) hIf (by decide)
    · refine List.forall_mem_append.mpr ⟨List.forall_mem_append.mpr
        ⟨List.forall_mem_append.mpr ⟨List.forall_mem_singleton.mpr ?_,
          List.forall_mem_map.mpr ?_⟩, List.forall_mem_singleton.mpr ?_⟩, ?_⟩
      · exact addlib_ne_iface t.name
      · intro src _
        exact ne_of_head2 ' ' 'a' (head_append (by decide) _) hIf (by decide)
      · exact ne_of_head2 ')' 'a' (by decide) hIf (by decide)
      · refine List.forall_mem_cons.mpr ⟨?_, List.forall_mem_cons.mpr ⟨?_,
          List.forall_mem_cons.mpr ⟨?_, List.forall_mem_singleton.mpr ?_⟩⟩⟩
        · exact ne_of_head2 't' 'a'
            (head_append (head_append (head_append (by decide) _) _) _) hIf (by decide)
        · exact ne_of_head2 ' ' 'a' (by decide) hIf (by decide)
        · exact ne_of_head2 ' ' 'a' (by decide) hIf (by decide)
        · exact ne_of_head2 ')' 'a' (by decide) hIf (by decide)
    · refine List.forall_mem_append.mpr ⟨List.forall_mem_append.mpr
        ⟨List.forall_mem_singleton.mpr ?_, List.forall_mem_map.mpr ?_⟩,
        List.forall_mem_singleton.mpr ?_⟩
      · exact ne_of_head2 't' 'a'
          (head_append (head_append (head_append (by decide) _) _) _) hIf (by decide)
      · intro dep _
        exact ne_of_head2 ' ' 'a' (head_append (by decide) _) hIf (by decide)
      · exact ne_of_head2 ')' 'a' (by decide) hIf (by decide)
  exact hall _ hmem rfl

/-! ## Counting lemmas for the install section -/

theorem count_filesBlock (t : BazelTarget) :
    (filesBlock t).count "install(FILES" = if !t.hdrs.isEmpty then 1 else 0 := by
  unfold filesBlock
  split
  · rw [List.count_append, List.count_append]
    have h1 : (["install(FILES"] : List String).count "install(FILES" = 1 := by decide
    have h2 : (t.hdrs.map (fun hdr => "    " ++ hdr)).count "install(FILES" = 0 := by
      rw [List.count_eq_zero]
      intro hm
      rcases List.mem_map.mp hm with ⟨hdr, _, heq⟩
      exact ne_of_head2 ' ' 'i' (head_append (by decide) _) (by decide) (by decide) heq
    have h3 : (["    DESTINATION include)"] : List String).count "install(FILES" = 0 := by
      decide
    omega
  · rfl

theorem count_files_flatten (libs : List BazelTarget) :
    ((libs.map filesBlock).flatten).count "install(FILES" =
      libs.countP (fun t => !t.hdrs.isEmpty) := by
  induction libs with
  | nil => rfl
  | cons t ts ih =>
    rw [List.map_cons, List.flatten_cons, List.count_append, ih, count_filesBlock,
      List.countP_cons]
    by_cases h : (!t.hdrs.isEmpty) = true
    · simp only [h]
      simp
      omega
    · simp only [bool_false h]
      simp

theorem count_files_targetsBlock (target_names : List String) :
    (targetsInstallBlock target_names).count "install(FILES" = 0 := by
  unfold targetsInstallBlock
  split
  · rw [List.count_append, List.count_append]
    have ha : (["install(TARGETS"] : List String).count "install(FILES" = 0 := by decide
    have hb : (target_names.map (fun name => "    " ++ name)).count "install(FILES" = 0 := by
      rw [List.count_eq_zero]
      intro hm
      rcases List.mem_map.mp hm with ⟨name, _, heq⟩
      exact ne_of_head2 ' ' 'i' (head_append (by decide) _) (by decide) (by decide) heq
    have hc : (["    EXPORT ${PROJECT_NAME}Targets",
       "    LIBRARY DESTINATION lib",
       "    ARCHIVE DESTINATION lib",
       "    RUNTIME DESTINATION bin",
       "    INCLUDES DESTINATION include)"] : List String).count "install(FILES" = 0 := by
      decide
    omega
  · rfl

theorem count_files_install (libs : List BazelTarget) :
    (_generate_install_rules libs).count "install(FILES" =
      libs.countP (fun t => !t.hdrs.isEmpty) := by
  unfold _generate_install_rules
  rw [List.count_append, List.count_append, count_files_flatten,
    count_files_targetsBlock]
  have h1 : (["# Install rules"] : List String).count "install(FILES" = 0 := by decide
  omega

theorem count_targets_targetsBlock (target_names : List String)
    (hne : target_names ≠ []) :
    (targetsInstallBlock target_names).count "install(TARGETS" = 1 := by
  unfold targetsInstallBlock
  have hcond : (!target_names.isEmpty) = true := by
    simp [List.isEmpty_iff, hne]
  rw [if_pos hcond, List.count_append, List.count_append]
  have ha : (["install(TARGETS"] : List String).count "install(TARGETS" = 1 := by decide
  have hb : (target_names.map (fun name => "    " ++ name)).count "install(TARGETS" = 0 := by
    rw [List.count_eq_zero]
    intro hm
    rcases List.mem_map.mp hm with ⟨name, _, heq⟩
    exact ne_of_head2 ' ' 'i' (head_append (by decide) _) (by decide) (by decide) heq
  have hc : (["    EXPORT ${PROJECT_NAME}Targets",
     "    LIBRARY DESTINATION lib",
     "    ARCHIVE DESTINATION lib",
     "    RUNTIME DESTINATION bin",
     "    INCLUDES DESTINATION include)"] : List String).count "install(TARGETS" = 0 := by
    decide
  omega

theorem count_targets_install (libs : List BazelTarget) (hne : libs ≠ []) :
    (_generate_install_rules libs).count "install(TARGETS" = 1 := by
  unfold _generate_install_rules
  rw [List.count_append, List.count_append]
  have h1 : (["# Install rules"] : List String).count "install(TARGETS" = 0 := by decide
  have h2 : ((libs.map filesBlock).flatten).count "install(TARGETS" = 0 := by
    rw [List.count_eq_zero]
    intro hm
    rcases List.mem_flatten.mp hm with ⟨blk, hblk, hmem⟩
    rcases List.mem_map.mp hblk with ⟨t, _, rfl⟩
    have hall : ∀ l ∈ filesBlock t, l ≠ "install(TARGETS" := by
      unfold filesBlock
      refine forall_mem_ite ?_ (List.forall_mem_nil _)
      refine List.forall_mem_append.mpr ⟨List.forall_mem_append.mpr
        ⟨List.forall_mem_singleton.mpr ?_, List.forall_mem_map.mpr ?_⟩,
        List.forall_mem_singleton.mpr ?_⟩
      · decide
      · intro hdr _
        exact ne_of_head2 ' ' 'i' (head_append (by decide) _) (by decide) (by decide)
      · decide
    exact hall _ hmem rfl
  have h3 : (targetsInstallBlock (libs.map (fun t => t.name))).count
      "install(TARGETS" = 1 := by
    apply count_targets_targetsBlock
    simp [hne]
  omega

theorem name_mem_install (libs : List BazelTarget) {t : BazelTarget} (ht : t ∈ libs) :
    ("    " ++ t.name) ∈ _generate_install_rules libs := by
  unfold _generate_install_rules
  have hlibs : libs ≠ [] := by
    intro hnil
    rw [hnil] at ht
    cases ht
  have hcond : (!(libs.map (fun t => t.name)).isEmpty) = true := by
    simp [List.isEmpty_iff, hlibs]
  have hmem : ("    " ++ t.name) ∈
      (libs.map (fun t => t.name)).map (fun name => "    " ++ name) :=
    List.mem_map_of_mem _ (List.mem_map_of_mem _ ht)
  simp only [List.mem_append]
  right
  unfold targetsInstallBlock
  rw [if_pos hcond]
  simp only [List.mem_append]
  left
  right
  exact hmem

/-! ## Install-section and parse-failure characterizations -/

theorem filter_isLibrary (ts : List BazelTarget) :
    ts.filter (fun t => t.rule_type == "cc_library") = ts.filter isLibrary := rfl

theorem install_rules_ne_nil (libs : List BazelTarget) :
    _generate_install_rules libs ≠ [] := by
  unfold _generate_install_rules
  simp

theorem installSection_nil_iff (ts : List BazelTarget) :
    installSection ts = [] ↔ ts.filter isLibrary = [] := by
  simp only [installSection]
  rw [filter_isLibrary]
  by_cases h : ts.filter isLibrary = []
  · have hcond : (!(ts.filter isLibrary).isEmpty) = false := by
      simp [List.isEmpty_iff, h]
    rw [hcond]
    simp [h]
  · have hcond : (!(ts.filter isLibrary).isEmpty) = true := by
      simp [List.isEmpty_iff, h]
    rw [hcond]
    simp only [if_true]
    constructor
    · intro hx
      exact absurd hx (install_rules_ne_nil _)
    · intro hx
      exact absurd hx h

theorem installSection_filter (ts : List BazelTarget) :
    installSection (ts.filter isLibrary) = installSection ts := by
  simp only [installSection]
  rw [List.filter_filter]
  have : (fun t => t.rule_type == "cc_library" && isLibrary t) = isLibrary := by
    funext t
    simp [isLibrary, Bool.and_self]
  rw [this, filter_isLibrary]

theorem parse_syntaxError_iff (ts : List BazelTarget) (d : DescriptorText) :
    (parse_file ts d).1 = some PyError.syntaxError ↔ d = DescriptorText.malformed := by
  cases d with
  | malformed => simp [parse_file]
  | valid prog =>
    simp only [parse_file]
    constructor
    · intro h
      exact absurd h (execProg_no_syntaxError prog ts)
    · intro h
      cases h

/-! ## Claim theorems -/

/-- C1: a Library-kind target with empty sources and at least one header is
rendered as an interface-only unit (`add_library ... INTERFACE`) — every
`add_library`-prefixed line of its block is that interface declaration, so it
is never rendered as a compiled unit — with every header listed as an
interface source; a Library-kind target with non-empty sources is rendered as
a compiled unit (a bare `add_library` declaration, no interface declaration).
Every line of the target's block appears in the generated output. -/
theorem claim_C1 (t : BazelTarget) (hlib : t.rule_type = "cc_library") :
    ((t.srcs = [] ∧ t.hdrs ≠ []) →
      ("add_library(" ++ t.name ++ " INTERFACE)") ∈ _generate_target t ∧
      (∀ l ∈ _generate_target t, pyStartsWith l "add_library(" = true →
        l = "add_library(" ++ t.name ++ " INTERFACE)") ∧
      ("target_sources(" ++ t.name ++ " INTERFACE") ∈ _generate_target t ∧
      (∀ h ∈ t.hdrs,
        ("    ${CMAKE_CURRENT_SOURCE_DIR}/" ++ h) ∈ _generate_target t)) ∧
    (t.srcs ≠ [] →
      ("add_library(" ++ t.name) ∈ _generate_target t ∧
      ("add_library(" ++ t.name ++ " INTERFACE)") ∉ _generate_target t) ∧
    (∀ (g : CMakeGenerator) (ts : List BazelTarget), t ∈ ts →
      ∀ l ∈ _generate_target t, l ∈ generateLines g ts) := by
  have hdisp : _generate_target t = _generate_library_target t := by
    unfold _generate_target
    rw [if_pos hlib]
  refine ⟨?_, ?_, fun g ts ht l hl => mem_generateLines_of_mem_target g ht hl⟩
  · rintro ⟨hs, hh⟩
    rw [hdisp]
    refine ⟨?_, library_header_only_addlib_unique t hs hh, ?_, ?_⟩
    · rw [library_target_header_only t hs hh]
      simp
    · rw [library_target_header_only t hs hh]
      simp
    · intro h hmem
      rw [library_target_header_only t hs hh]
      have hmap : ("    ${CMAKE_CURRENT_SOURCE_DIR}/" ++ h) ∈
          t.hdrs.map (fun hdr => "    ${CMAKE_CURRENT_SOURCE_DIR}/" ++ hdr) :=
        List.mem_map_of_mem _ hmem
      simp only [List.mem_append]
      tauto
  · intro hs
    have hb : (t.srcs.isEmpty && !t.hdrs.isEmpty) = false := by
      have h1 : t.srcs.isEmpty = false := by
        simp [List.isEmpty_iff, hs]
      simp [h1]
    rw [hdisp]
    constructor
    · rw [library_target_compiled t hb]
      simp
    · exact library_compiled_no_iface t hb

/-- C1 witness: the theorem applied to a concrete header-only library and a
concrete library with sources. -/
theorem claim_C1_witness :
    ("add_library(" ++ "hdr_lib" ++ " INTERFACE)") ∈ _generate_target
      { rule_type := "cc_library", name := "hdr_lib", hdrs := ["a.h"] } ∧
    ("add_library(" ++ "src_lib") ∈ _generate_target
      { rule_type := "cc_library", name := "src_lib", hdrs := ["b.h"],
        srcs := ["b.cc"] } := by
  constructor
  · exact ((claim_C1 _ rfl).1 ⟨rfl, by decide⟩).1
  · exact ((claim_C1 _ rfl).2.1 (by decide)).1

/-- C2 counterexample: a syntactically valid descriptor whose only construct
is an invocation of an unrecognized rule (`py_library`) is not ignored: the
parse fails with a `NameError`, contradicting the claim that such constructs
are ignored without error. -/
theorem claim_C2_cex :
    parse_file []
      (DescriptorText.valid [Stmt.call "py_library" [("name", PyVal.str "x")]]) =
      (some (PyError.nameError "py_library"), []) := by
  rfl

/-- C2 (amended): import/load-style statements are ignored without error and
contribute no Target, and invocations of the three known rule kinds are
captured fully; but an invocation of any other rule name — one not bound in
the execution environment — is not tolerated: it raises a `NameError` that
propagates. -/
theorem claim_C2_amended :
    (∀ (ts : List BazelTarget) (m : String),
      execStmt ts (Stmt.imp m) = Except.ok ts) ∧
    (∀ (ts : List BazelTarget) (kwargs : List (String × PyVal)),
      execStmt ts (Stmt.call "load" kwargs) = Except.ok ts) ∧
    (∀ (ts : List BazelTarget) (kwargs : List (String × PyVal)),
      execStmt ts (Stmt.call "cc_library" kwargs) =
        Except.ok (ts ++ [mkTarget "cc_library" kwargs]) ∧
      execStmt ts (Stmt.call "cc_test" kwargs) =
        Except.ok (ts ++ [mkTarget "cc_test" kwargs]) ∧
      execStmt ts (Stmt.call "cc_binary" kwargs) =
        Except.ok (ts ++ [mkTarget "cc_binary" kwargs])) ∧
    (∀ (ts : List BazelTarget) (f : String) (kwargs : List (String × PyVal)),
      f ∉ (["load", "cc_library", "cc_test", "cc_binary"] : List String) →
      execStmt ts (Stmt.call f kwargs) = Except.error (PyError.nameError f)) := by
  refine ⟨fun ts m => rfl, fun ts kwargs => rfl, fun ts kwargs => ⟨rfl, rfl, rfl⟩,
    fun ts f kwargs hf => ?_⟩
  simp only [List.mem_cons, List.not_mem_nil, or_false, not_or] at hf
  obtain ⟨h1, h2, h3, h4⟩ := hf
  simp only [execStmt]
  rw [if_neg h1, if_neg h2, if_neg h3, if_neg h4]

/-- C2 witness: the amended theorem applied to an invocation of `glob`, a
name outside the recognized vocabulary. -/
theorem claim_C2_amended_witness :
    execStmt [] (Stmt.call "glob" []) = Except.error (PyError.nameError "glob") :=
  claim_C2_amended.2.2.2 [] "glob" [] (by decide)

/-- C3 counterexample: a syntactically valid descriptor declaring zero
recognized rule invocations (its only statement calls the unbound name
`foo`) does not yield a successful parse: it fails with a `NameError`,
contradicting the claim's second half. -/
theorem claim_C3_cex :
    parse_file [] (DescriptorText.valid [Stmt.call "foo" []]) =
      (some (PyError.nameError "foo"), []) := by
  rfl

/-- C3 (amended): parsing fails with a `SyntaxError` exactly when the input
is syntactically malformed, and then no target is added to the parser state;
a syntactically valid input all of whose statements are load/import-style
(hence declaring zero recognized rule invocations) yields a successful parse
returning an empty Target sequence.  (A valid input that calls an
unrecognized name instead fails with a `NameError`, not a `SyntaxError`.) -/
theorem claim_C3_amended :
    (∀ (ts : List BazelTarget) (d : DescriptorText),
      (parse_file ts d).1 = some PyError.syntaxError ↔
        d = DescriptorText.malformed) ∧
    (∀ ts : List BazelTarget,
      parse_file ts DescriptorText.malformed = (some PyError.syntaxError, ts)) ∧
    (∀ prog : List Stmt, (∀ s ∈ prog, onlyLoadOrImport s = true) →
      parse_file [] (DescriptorText.valid prog) = (none, [])) := by
  refine ⟨parse_syntaxError_iff, fun ts => rfl, fun prog h => ?_⟩
  have hload : ∀ s ∈ prog, onlyLoadOrImport s = true := h
  exact execProg_of_onlyLoadOrImport prog hload []

/-- C3 witness: the amended theorem applied to a descriptor consisting of
an import statement and a `load` call. -/
theorem claim_C3_amended_witness :
    parse_file [] (DescriptorText.valid [Stmt.imp "os", Stmt.call "load" []]) =
      (none, []) :=
  claim_C3_amended.2.2 _ (by decide)

/-- C4 counterexample: a target whose dependency string `"gtest"` contains
`"gtest"` as a substring (so the claim's recognition criterion holds) but
does not start with `"@"`: no fetch block is emitted, contradicting the
claimed if-and-only-if. -/
theorem claim_C4_cex :
    (("gtest" : String) ∈
      ({ rule_type := "cc_test", name := "t", srcs := ["t.cc"],
         deps := ["gtest"] } : BazelTarget).deps) ∧
    pyContains "gtest" "gtest" = true ∧
    "FetchContent_Declare(" ∉ generateLines (CMakeGenerator.init "p")
      [{ rule_type := "cc_test", name := "t", srcs := ["t.cc"],
         deps := ["gtest"] }] := by
  refine ⟨by decide, by decide, fun hmem => ?_⟩
  have h := (fetch_mem_iff _ _).mp hmem
  exact absurd h (by decide)

/-- C4 (amended): the external-dependency fetch block (`FetchContent` for
GoogleTest, pinned to a fixed version tag) is emitted if and only if some
target has a dependency string that starts with the external-package sigil
`"@"` and contains `"googletest"` or `"gtest"` as a case-sensitive
substring; when it is emitted, every line of the fixed fetch block (with its
pinned `GIT_TAG        v1.14.0`) appears in the output. -/
theorem claim_C4_amended (g : CMakeGenerator) (ts : List BazelTarget) :
    ("FetchContent_Declare(" ∈ generateLines g ts ↔
      ∃ t ∈ ts, ∃ d ∈ t.deps, pyStartsWith d "@" = true ∧
        (pyContains d "googletest" = true ∨ pyContains d "gtest" = true)) ∧
    ((∃ t ∈ ts, ∃ d ∈ t.deps, pyStartsWith d "@" = true ∧
        (pyContains d "googletest" = true ∨ pyContains d "gtest" = true)) →
      ∀ l ∈ gtestFetchBlock, l ∈ generateLines g ts) := by
  have hbridge : (ts.any (fun t => t.deps.any gtestDep) = true) ↔
      (∃ t ∈ ts, ∃ d ∈ t.deps, pyStartsWith d "@" = true ∧
        (pyContains d "googletest" = true ∨ pyContains d "gtest" = true)) := by
    simp [List.any_eq_true, gtestDep, Bool.and_eq_true, Bool.or_eq_true]
  constructor
  · rw [fetch_mem_iff]
    exact hbridge
  · intro hex l hl
    have hany : ts.any (fun t => t.deps.any gtestDep) = true := hbridge.mpr hex
    unfold generateLines
    rw [externalDepsSection_eq, if_pos hany]
    simp only [List.mem_append]
    tauto

/-- C4 witness: the amended theorem applied to a concrete target depending
on `"@com_google_googletest//:gtest_main"`. -/
theorem claim_C4_witness :
    "FetchContent_Declare(" ∈ generateLines (CMakeGenerator.init "p") [exGtestTest] ∧
    "    GIT_TAG        v1.14.0" ∈
      generateLines (CMakeGenerator.init "p") [exGtestTest] := by
  have hex : ∃ t ∈ [exGtestTest], ∃ d ∈ t.deps, pyStartsWith d "@" = true ∧
      (pyContains d "googletest" = true ∨ pyContains d "gtest" = true) :=
    ⟨exGtestTest, by decide, "@com_google_googletest//:gtest_main", by decide,
      by decide, Or.inl (by decide)⟩
  exact ⟨(claim_C4_amended _ _).1.mpr hex,
    (claim_C4_amended _ _).2 hex _ (by decide)⟩

/-- C5 counterexample: a Test-kind target with a non-empty dependency list
whose single entry (`"@abseil"`) resolves to nothing: no link-dependency
declaration is emitted, contradicting the claim that a non-empty dependency
sequence always yields one. -/
theorem claim_C5_cex :
    (({ rule_type := "cc_test", name := "t", srcs := ["t.cc"],
        deps := ["@abseil"] } : BazelTarget).deps ≠ []) ∧
    (∀ l ∈ _generate_target
        { rule_type := "cc_test", name := "t", srcs := ["t.cc"],
          deps := ["@abseil"] },
      pyStartsWith l "target_link_libraries(" = false) := by
  constructor
  · decide
  · decide

/-- C5 (amended): for every Test-kind target, generation emits an executable
declaration listing its sources, emits a link-dependency declaration exactly
when the dependency list resolves (after reference resolution) to a
non-empty identifier list — listing each resolved identifier — and always
emits a test-registration entry naming the executable. -/
theorem claim_C5_amended (t : BazelTarget) (hrt : t.rule_type = "cc_test") :
    ("add_executable(" ++ t.name) ∈ _generate_target t ∧
    (∀ s ∈ t.srcs, ("    " ++ s) ∈ _generate_target t) ∧
    (("target_link_libraries(" ++ t.name) ∈ _generate_target t ↔
      _convert_deps_to_cmake t.deps ≠ []) ∧
    (∀ d ∈ _convert_deps_to_cmake t.deps, ("    " ++ d) ∈ _generate_target t) ∧
    ("add_test(NAME " ++ t.name ++ " COMMAND " ++ t.name ++ ")") ∈
      _generate_target t := by
  have hdisp : _generate_target t = _generate_test_target t := by
    unfold _generate_target
    rw [if_neg (by rw [hrt]; decide), if_pos hrt]
  rw [hdisp]
  refine ⟨?_, ?_, ?_, ?_, ?_⟩
  · simp [_generate_test_target]
  · intro s hs
    have hmap : ("    " ++ s) ∈ t.srcs.map (fun src => "    " ++ src) :=
      List.mem_map_of_mem _ hs
    simp only [_generate_test_target, List.mem_append]
    tauto
  · constructor
    · intro hmem
      by_contra hnotne
      have hnil : _convert_deps_to_cmake t.deps = [] := hnotne
      have hcond : (!(_convert_deps_to_cmake t.deps).isEmpty) = false := by
        simp [List.isEmpty_iff, hnil]
      simp only [_generate_test_target, hcond, Bool.false_eq_true, if_false,
        List.append_nil] at hmem
      have hIf : ("target_link_libraries(" ++ t.name).data.head? = some 't' :=
        head_append (by decide) _
      have hall : ∀ l ∈ (["# Test: " ++ t.name, "add_executable(" ++ t.name] ++
          t.srcs.map (fun src => "    " ++ src) ++ [")"] ++
          ["add_test(NAME " ++ t.name ++ " COMMAND " ++ t.name ++ ")"]),
          l ≠ "target_link_libraries(" ++ t.name := by
        refine List.forall_mem_append.mpr ⟨List.forall_mem_append.mpr
          ⟨List.forall_mem_append.mpr ⟨List.forall_mem_cons.mpr ⟨?_,
            List.forall_mem_singleton.mpr ?_⟩, List.forall_mem_map.mpr ?_⟩,
            List.forall_mem_singleton.mpr ?_⟩, List.forall_mem_singleton.mpr ?_⟩
        · exact ne_of_head2 '#' 't' (head_append (by decide) _) hIf (by decide)
        · exact ne_of_head2 'a' 't' (head_append (by decide) _) hIf (by decide)
        · intro src _
          exact ne_of_head2 ' ' 't' (head_append (by decide) _) hIf (by decide)
        · exact ne_of_head2 ')' 't' (by decide) hIf (by decide)
        · exact ne_of_head2 'a' 't'
            (head_append (head_append (head_append (head_append (by decide) _) _) _) _)
            hIf (by decide)
      exact hall _ hmem rfl
    · intro hne
      have hcond : (!(_convert_deps_to_cmake t.deps).isEmpty) = true := by
        simp [List.isEmpty_iff, hne]
      simp [_generate_test_target, hcond]
  · intro d hd
    have hne : _convert_deps_to_cmake t.deps ≠ [] := List.ne_nil_of_mem hd
    have hcond : (!(_convert_deps_to_cmake t.deps).isEmpty) = true := by
      simp [List.isEmpty_iff, hne]
    have hmap : ("    " ++ d) ∈
        (_convert_deps_to_cmake t.deps).map (fun dep => "    " ++ dep) :=
      List.mem_map_of_mem _ hd
    simp only [_generate_test_target, hcond, if_true, List.mem_append]
    tauto
  · simp [_generate_test_target]

/-- C5 witness: the amended theorem applied to a concrete test target with a
local dependency. -/
theorem claim_C5_amended_witness :
    ("add_executable(" ++ "my_test") ∈ _generate_target
      { rule_type := "cc_test", name := "my_test", srcs := ["my_test.cc"],
        deps := [":my_lib"] } ∧
    ("add_test(NAME " ++ "my_test" ++ " COMMAND " ++ "my_test" ++ ")") ∈
      _generate_target
      { rule_type := "cc_test", name := "my_test", srcs := ["my_test.cc"],
        deps := [":my_lib"] } := by
  exact ⟨(claim_C5_amended _ rfl).1, (claim_C5_amended _ rfl).2.2.2.2⟩

/-- C6: reference resolution maps `":foo"` to `"foo"` (sigil stripped), maps
`"//a/b:foo"` to the substring after the last colon, maps colon-free
`"//a/b"` to the substring after the last slash; the external
testing-framework main-entry-point reference resolves to a fixed identifier
distinct from the plain variant's; and every resolved identifier appears in
the emitted link-dependency list. -/
theorem claim_C6 :
    (∀ s : String, convertDep (":" ++ s) = some s) ∧
    (∀ p foo : String, pyContains foo ":" = false →
      convertDep ("//" ++ p ++ ":" ++ foo) = some foo) ∧
    (∀ p b : String, pyContains ("//" ++ p ++ "/" ++ b) ":" = false →
      pyContains b "/" = false → convertDep ("//" ++ p ++ "/" ++ b) = some b) ∧
    (convertDep "@com_google_googletest//:gtest_main" = some "GTest::gtest_main" ∧
      convertDep "@com_google_googletest//:gtest" = some "GTest::gtest" ∧
      ("GTest::gtest_main" : String) ≠ "GTest::gtest") ∧
    (∀ (deps : List String) (dep r : String), dep ∈ deps →
      convertDep dep = some r → r ∈ _convert_deps_to_cmake deps) := by
  refine ⟨convertDep_local, convertDep_pkg_colon, convertDep_pkg_slash,
    ⟨convertDep_gtest_main, convertDep_gtest_plain, by decide⟩,
    fun deps dep r hm hr => mem_convert_deps hm hr⟩

/-- C6 witness: the theorem applied to the spec's own examples `":foo"`,
`"//a/b:foo"` and `"//a/b"`. -/
theorem claim_C6_witness :
    convertDep (":" ++ "foo") = some "foo" ∧
    convertDep ("//" ++ "a/b" ++ ":" ++ "foo") = some "foo" ∧
    convertDep ("//" ++ "a" ++ "/" ++ "b") = some "b" :=
  ⟨claim_C6.1 "foo", claim_C6.2.1 "a/b" "foo" (by decide),
    claim_C6.2.2.1 "a" "b" (by decide) (by decide)⟩

/-- C7: reference resolution is total — a dependency string matching none of
the resolution rules resolves to nothing and is silently omitted from the
emitted link-dependency list, with no error. -/
theorem claim_C7 (dep : String)
    (h1 : pyStartsWith dep ":" = false)
    (h2 : pyStartsWith dep "//" = false)
    (h3 : pyContains dep "@com_google_googletest//:gtest_main" = false)
    (h4 : pyContains dep "@com_google_googletest//:gtest" = false)
    (h5 : pyStartsWith dep "@" = true →
      (pyContains dep "googletest" || pyContains dep "gtest") = false) :
    convertDep dep = none ∧
    ∀ pre post : List String,
      _convert_deps_to_cmake (pre ++ dep :: post) =
        _convert_deps_to_cmake (pre ++ post) := by
  have hnone := convertDep_none h1 h2 h3 h4 h5
  refine ⟨hnone, fun pre post => ?_⟩
  unfold _convert_deps_to_cmake
  rw [List.filterMap_append, List.filterMap_append, List.filterMap_cons, hnone]

/-- C7 witness: the theorem applied to the unrecognized external reference
`"@abseil"` sitting between two resolvable references. -/
theorem claim_C7_witness :
    convertDep "@abseil" = none ∧
    _convert_deps_to_cmake ([":a"] ++ "@abseil" :: ["//x:y"]) =
      _convert_deps_to_cmake ([":a"] ++ ["//x:y"]) := by
  have h := claim_C7 "@abseil" (by decide) (by decide) (by decide) (by decide)
    (by decide)
  exact ⟨h.1, h.2 [":a"] ["//x:y"]⟩

/-- C8: the install section is emitted (as the final part of the generated
output) iff at least one Library-kind target exists; it is computed from the
Library-kind targets only (so Test- and Binary-kind targets never appear in
it); within it, every Library-kind target with non-empty headers produces
exactly one `install(FILES` block, there is a single combined
`install(TARGETS` declaration, and it lists every Library-kind target's
name. -/
theorem claim_C8 (g : CMakeGenerator) (ts : List BazelTarget) :
    (generateLines g ts =
      _generate_header g ++ [""] ++ externalDepsSection ts ++
      (ts.map (fun t => _generate_target t ++ [""])).flatten ++ installSection ts) ∧
    (installSection ts = [] ↔ ts.filter isLibrary = []) ∧
    (installSection (ts.filter isLibrary) = installSection ts) ∧
    ((_generate_install_rules (ts.filter isLibrary)).count "install(FILES" =
      (ts.filter isLibrary).countP (fun t => !t.hdrs.isEmpty)) ∧
    (ts.filter isLibrary ≠ [] →
      (_generate_install_rules (ts.filter isLibrary)).count "install(TARGETS" = 1) ∧
    (∀ t ∈ ts.filter isLibrary,
      ("    " ++ t.name) ∈ _generate_install_rules (ts.filter isLibrary)) := by
  refine ⟨rfl, installSection_nil_iff ts, installSection_filter ts,
    count_files_install _, count_targets_install _, fun t ht => name_mem_install _ ht⟩

/-- C8 witness: the theorem applied to a mixed target list with one library
(with a header), one test and one binary. -/
theorem claim_C8_witness :
    ((([{ rule_type := "cc_library", name := "lib", hdrs := ["lib.h"] },
        { rule_type := "cc_test", name := "tst", srcs := ["t.cc"] },
        { rule_type := "cc_binary", name := "bin", srcs := ["m.cc"] }] :
        List BazelTarget).filter isLibrary ≠ []) ∧
     (_generate_install_rules
        (([{ rule_type := "cc_library", name := "lib", hdrs := ["lib.h"] },
           { rule_type := "cc_test", name := "tst", srcs := ["t.cc"] },
           { rule_type := "cc_binary", name := "bin", srcs := ["m.cc"] }] :
           List BazelTarget).filter isLibrary)).count "install(TARGETS" = 1) := by
  constructor
  · decide
  · exact (claim_C8 (CMakeGenerator.init "p") _).2.2.2.2.1 (by decide)

/-- C9 counterexample: `generate_cmake` itself performs a filesystem write
(its write trace is non-empty), contradicting the claim that the generation
layer has no filesystem interaction. -/
theorem claim_C9_cex :
    generate_cmake (CMakeGenerator.init "strong_typedefs") [] "CMakeLists.txt" ≠ [] := by
  simp [generate_cmake]

/-- C9 (amended): the text `generate_cmake` produces is a pure function of
the Target sequence and the `projectName` configuration — the written
content does not depend on the output path, and two runs on identical
inputs produce identical text — but the write to the output path happens
inside `generate_cmake` itself (exactly one write), not in an external
collaborator. -/
theorem claim_C9_amended (project_name : String) (ts : List BazelTarget)
    (path : String) :
    generate_cmake (CMakeGenerator.init project_name) ts path =
      [(path, String.intercalate "\n"
        (generateLines (CMakeGenerator.init project_name) ts))] ∧
    (generate_cmake (CMakeGenerator.init project_name) ts path).length = 1 ∧
    (∀ path₂ : String,
      (generate_cmake (CMakeGenerator.init project_name) ts path).map Prod.snd =
      (generate_cmake (CMakeGenerator.init project_name) ts path₂).map Prod.snd) :=
  ⟨rfl, rfl, fun _ => rfl⟩

/-- C10: the parser state accumulates: the pre-existing target list is a
prefix of the state after any parse call (also after a failing one); after a
successful first parse, its result list is a prefix of whatever a second
parse call on the same instance returns; and the targets recorded by a
successful statement prefix of a program remain in the state even when the
rest of the program fails. -/
theorem claim_C10 :
    (∀ (ts : List BazelTarget) (d : DescriptorText), ts <+: (parse_file ts d).2) ∧
    (∀ (d₁ d₂ : DescriptorText) (r₁ : List BazelTarget),
      parse_file [] d₁ = (none, r₁) → r₁ <+: (parse_file r₁ d₂).2) ∧
    (∀ (ts : List BazelTarget) (prog₁ prog₂ : List Stmt),
      (execProg ts prog₁).1 = none →
      (execProg ts prog₁).2 <+: (execProg ts (prog₁ ++ prog₂)).2) := by
  have hstate : ∀ (ts : List BazelTarget) (d : DescriptorText),
      ts <+: (parse_file ts d).2 := by
    intro ts d
    cases d with
    | malformed => exact List.prefix_refl ts
    | valid prog => exact execProg_state_extends prog ts
  refine ⟨hstate, fun d₁ d₂ r₁ h₁ => hstate r₁ d₂, fun ts prog₁ prog₂ h => ?_⟩
  rw [execProg_append h]
  exact execProg_state_extends prog₂ _

/-- C10 witness: after parsing one `cc_library` declaration, a second parse
whose program fails mid-way (an unbound name after a `cc_test` declaration)
still returns a list beginning with the first call's target. -/
theorem claim_C10_witness :
    ([{ rule_type := "cc_library", name := "a" }] : List BazelTarget) <+:
      (parse_file [{ rule_type := "cc_library", name := "a" }]
        (DescriptorText.valid [Stmt.call "cc_test" [("name", PyVal.str "t")],
          Stmt.call "boom" []])).2 :=
  claim_C10.2.1 (DescriptorText.valid [Stmt.call "cc_library"
      [("name", PyVal.str "a")]])
    (DescriptorText.valid [Stmt.call "cc_test" [("name", PyVal.str "t")],
      Stmt.call "boom" []])
    [{ rule_type := "cc_library", name := "a" }] (by decide)

end BazelToCMake
